import Mathlib

/-!
Verification of the `homebridge-xiaomi-yeelight` accessory adapter.

The repository is a thin adapter between a home-automation platform and a
Yeelight device-control client.  We shallowly embed the `Light` accessory
class of `src/platformAccessory.ts` (the later, event-driven, night-mode
variant) together with the synchronous-pull variant (the revision with
`getOn`/`getBrightness`/... getters) and the `setMoonLight` variant.

Numbers passed around by the platform are modelled as exact rationals,
device commands and characteristic updates as explicit traces, and a
fallible device call as a `DevResult` parameter (`ok`/`err`) that selects
the `try` or `catch` path of the original code.
-/

namespace Yeelight

/-- A JavaScript value as it appears in command arguments and
characteristic updates. -/
inductive JsVal where
  | str : String → JsVal
  | num : ℚ → JsVal
  | bool : Bool → JsVal
deriving DecidableEq, Repr

/-- One command issued to the miio device client (`this.connection`). -/
inductive DeviceCmd where
  | setPower : Bool → DeviceCmd
  | setBrightness : ℚ → DeviceCmd
  | color : String → DeviceCmd
  | call : String → List JsVal → DeviceCmd
  | loadProperties : List String → DeviceCmd
  | changeMode : String → DeviceCmd
deriving DecidableEq, Repr

/-- Outcome of an awaited device-client call: the `try` branch runs to
completion (`ok`) or the call rejects and control jumps to `catch`
(`err`). -/
inductive DevResult where
  | ok : DevResult
  | err : DevResult
deriving DecidableEq, Repr

/-- The platform characteristic receiving an `updateValue` call. -/
inductive CharTarget where
  | power : CharTarget
  | brightness : CharTarget
  | colorTmp : CharTarget
  | hue : CharTarget
  | sat : CharTarget
  | nightModeSwitch : CharTarget
deriving DecidableEq, Repr

/-- One `characteristic.updateValue(value)` call pushed to the platform. -/
structure CharUpdate where
  target : CharTarget
  value : JsVal
deriving DecidableEq, Repr

/-- The local shadow state of the accessory (`this.state`): the cached hue and
saturation used to rebuild combined HSL commands. -/
structure ShadowState where
  hue : ℚ
  saturation : ℚ
deriving DecidableEq, Repr

/-- The combined HSL command string
`hsl(${hue}, ${saturation}%, 100%)` built by `setHue`/`setSaturation`. -/
def hslString (h s : ℚ) : String :=
  "hsl(" ++ toString h ++ ", " ++ toString s ++ "%, 100%)"

/-- Result of one setter invocation: the shadow state after the call, the
device commands attempted, the `updateValue` calls made synchronously, the
`updateValue` calls deferred through `setTimeout`, whether the error was
logged, and whether an exception escaped to the platform caller. -/
structure SetterOut where
  shadow : ShadowState
  cmds : List DeviceCmd
  updates : List CharUpdate
  deferred : List CharUpdate
  loggedError : Bool
  raises : Bool
deriving DecidableEq, Repr

/-- `setOn` (`src/platformAccessory.ts` lines 156-173): sends `setPower`,
and on success turns the night-mode switch off when the power was set to
off while the switch was on; a failure is caught and logged. -/
def setOn (value : Bool) (st : ShadowState) (nightOn : Bool)
    (res : DevResult) : SetterOut :=
  match res with
  | .ok =>
    ⟨st, [.setPower value],
      if !value && nightOn then [⟨.nightModeSwitch, .bool false⟩] else [],
      [], false, false⟩
  | .err => ⟨st, [.setPower value], [], [], true, false⟩

/-- `setBrightness` (`src/platformAccessory.ts` lines 175-191): sends
`setBrightness`, on success turns the night-mode switch off when it was
on; a failure is caught and logged. -/
def setBrightness (value : ℚ) (st : ShadowState) (nightOn : Bool)
    (res : DevResult) : SetterOut :=
  match res with
  | .ok =>
    ⟨st, [.setBrightness value],
      if nightOn then [⟨.nightModeSwitch, .bool false⟩] else [],
      [], false, false⟩
  | .err => ⟨st, [.setBrightness value], [], [], true, false⟩

/-- JavaScript `Math.round` on an exact rational: round half toward
positive infinity, i.e. `⌊q + 1/2⌋`. -/
def jsRound (q : ℚ) : ℤ := ⌊q + 1 / 2⌋

/-- The Kelvin command string `${Math.round(1000000 / value)}K` built by
`setColorTemperature`. -/
def kelvinStr (value : ℚ) : String :=
  toString (jsRound (1000000 / value)) ++ "K"

/-- `setColorTemperature` (`src/platformAccessory.ts` lines 193-217):
converts the mired input to a Kelvin string and sends it as a color
command; on success turns the night-mode switch off when it was on; a
failure is caught and logged. -/
def setColorTemperature (value : ℚ) (st : ShadowState) (nightOn : Bool)
    (res : DevResult) : SetterOut :=
  match res with
  | .ok =>
    ⟨st, [.color (kelvinStr value)],
      if nightOn then [⟨.nightModeSwitch, .bool false⟩] else [],
      [], false, false⟩
  | .err => ⟨st, [.color (kelvinStr value)], [], [], true, false⟩

/-- `setHue` (`src/platformAccessory.ts` lines 219-240): stores the new
hue in the shadow state, sends the combined HSL command, and on failure
restores the previous shadow hue and logs the error. -/
def setHue (value : ℚ) (st : ShadowState) (nightOn : Bool)
    (res : DevResult) : SetterOut :=
  let oldHue := st.hue
  let st1 : ShadowState := { st with hue := value }
  let cmd := DeviceCmd.color (hslString st1.hue st1.saturation)
  match res with
  | .ok =>
    ⟨st1, [cmd],
      if nightOn then [⟨.nightModeSwitch, .bool false⟩] else [],
      [], false, false⟩
  | .err => ⟨{ st1 with hue := oldHue }, [cmd], [], [], true, false⟩

/-- `setSaturation` (`src/platformAccessory.ts` lines 242-263): stores the
new saturation in the shadow state, sends the combined HSL command, and on
failure restores the previous shadow saturation and logs the error. -/
def setSaturation (value : ℚ) (st : ShadowState) (nightOn : Bool)
    (res : DevResult) : SetterOut :=
  let oldSat := st.saturation
  let st1 : ShadowState := { st with saturation := value }
  let cmd := DeviceCmd.color (hslString st1.hue st1.saturation)
  match res with
  | .ok =>
    ⟨st1, [cmd],
      if nightOn then [⟨.nightModeSwitch, .bool false⟩] else [],
      [], false, false⟩
  | .err => ⟨{ st1 with saturation := oldSat }, [cmd], [], [], true, false⟩

/-- The per-accessory characteristic references
(`LightCharacteristics` in `src/models.ts`), each carrying the
platform-cached `.value` of the characteristic; optional fields are
populated only when the matching capability was detected. -/
structure LightChars where
  power : Bool
  colorTmp : Option ℚ
  brightness : Option ℚ
  hue : Option ℚ
  sat : Option ℚ
deriving DecidableEq, Repr

/-- The full adapter state of the event-driven night-mode variant: shadow
state, characteristic references with their cached values, and the cached
value of the night-mode switch characteristic. -/
structure LightState where
  shadow : ShadowState
  chars : LightChars
  nightModeSwitchOn : Bool
deriving DecidableEq, Repr

/-- An HSV color object as produced by the `.hsv` accessor of the
external color library. -/
structure HSV where
  hue : ℚ
  saturation : ℚ
  value : ℚ
deriving DecidableEq, Repr

/-- An RGB color object of the external color library. -/
structure RGB where
  r : ℚ
  g : ℚ
  b : ℚ
deriving DecidableEq, Repr

/-- Model of the RGB→HSV conversion of the external `abstract-things`
color library (the repository delegates all color-space math to that
library); this is the standard conversion on exact rationals, with hue in
degrees and saturation/value in percent. -/
def rgbToHsv (c : RGB) : HSV :=
  let mx := max c.r (max c.g c.b)
  let mn := min c.r (min c.g c.b)
  let d := mx - mn
  let h0 : ℚ :=
    if d = 0 then 0
    else if mx = c.r then 60 * (c.g - c.b) / d
    else if mx = c.g then 60 * (2 + (c.b - c.r) / d)
    else 60 * (4 + (c.r - c.g) / d)
  let h := if h0 < 0 then h0 + 360 else h0
  ⟨h, if mx = 0 then 0 else d / mx * 100, mx / 255 * 100⟩

/-- The fixed night-light color `color.rgb(255, 152, 0)` of
`setNightMode` (`src/platformAccessory.ts` line 268). -/
def nightLightColor : RGB := ⟨255, 152, 0⟩

/-- The first `if` of `updateHueAndSaturation`
(`src/platformAccessory.ts` lines 309-315): if the hue characteristic is
attached and the incoming hue differs from its cached value, store the hue
in the shadow state and push it. -/
def hueStep (c : HSV) (s : LightState) : LightState × List CharUpdate :=
  match s.chars.hue with
  | some hv =>
    if c.hue ≠ hv then
      ({ s with
          shadow := { s.shadow with hue := c.hue },
          chars := { s.chars with hue := some c.hue } },
        [CharUpdate.mk .hue (.num c.hue)])
    else (s, [])
  | none => (s, [])

/-- The second `if` of `updateHueAndSaturation`
(`src/platformAccessory.ts` lines 317-323): if the saturation
characteristic is attached and the incoming HUE differs from the cached
value of the saturation characteristic (the source compares `color.hue`,
not `color.saturation`, against `sat.value`), store the incoming
saturation in the shadow state and push it. -/
def satStep (c : HSV) (s : LightState) : LightState × List CharUpdate :=
  match s.chars.sat with
  | some sv =>
    if c.hue ≠ sv then
      ({ s with
          shadow := { s.shadow with saturation := c.saturation },
          chars := { s.chars with sat := some c.saturation } },
        [CharUpdate.mk .sat (.num c.saturation)])
    else (s, [])
  | none => (s, [])

/-- `updateHueAndSaturation` (`src/platformAccessory.ts` lines 306-324):
takes the `.hsv` view of the incoming color and runs the hue branch, then
the saturation branch, collecting the pushed updates. -/
def updateHueAndSaturation (c : HSV) (s : LightState) :
    LightState × List CharUpdate :=
  let p1 := hueStep c s
  let p2 := satStep c p1.1
  (p2.1, p1.2 ++ p2.2)

/-- Result of a `setNightMode` invocation over the full adapter state;
`crash` records an unguarded access to an absent optional characteristic
(the non-null assertion `this.lightCharacteristics.brightness!` throwing a
TypeError). -/
structure NightOut where
  state : LightState
  cmds : List DeviceCmd
  updates : List CharUpdate
  deferred : List CharUpdate
  loggedError : Bool
  raises : Bool
  crash : Bool
deriving DecidableEq, Repr

/-- `setNightMode` (`src/platformAccessory.ts` lines 265-276): with a
truthy value it awaits a `set_scene` call with arguments `[nightlight, 10]` with NO
try/catch (a rejection propagates), then runs `updateHueAndSaturation` on
the fixed night-light color, dereferences the optional brightness
characteristic with a non-null assertion to push 1, and pushes power
`true`; with a falsy value it only schedules a zero-delay timer that
re-enables the night-mode switch. -/
def setNightMode (value : Bool) (s : LightState) (res : DevResult) :
    NightOut :=
  if value then
    let sceneCmd := DeviceCmd.call "set_scene" [.str "nightlight", .num 10]
    match res with
    | .err => ⟨s, [sceneCmd], [], [], false, true, false⟩
    | .ok =>
      let p := updateHueAndSaturation (rgbToHsv nightLightColor) s
      let s1 := p.1
      match s1.chars.brightness with
      | none => ⟨s1, [sceneCmd], p.2, [], false, true, true⟩
      | some _ =>
        ⟨{ s1 with
            chars := { s1.chars with brightness := some 1, power := true } },
          [sceneCmd],
          p.2 ++ [CharUpdate.mk .brightness (.num 1),
                  CharUpdate.mk .power (.bool true)],
          [], false, false, false⟩
  else
    ⟨s, [], [], [CharUpdate.mk .nightModeSwitch (.bool true)],
      false, false, false⟩

/-- `setMoonLight` (the `src/unnamed/part_002` variant, lines 275-281):
with a truthy value it awaits `changeMode(moonlight)`, otherwise
`setPower(false)`, in both cases with NO try/catch, so a device failure
propagates to the platform caller unlogged. -/
def setMoonLight (value : Bool) (res : DevResult) : SetterOut :=
  let cmd := if value then DeviceCmd.changeMode "moonlight"
             else DeviceCmd.setPower false
  match res with
  | .ok => ⟨⟨0, 0⟩, [cmd], [], [], false, false⟩
  | .err => ⟨⟨0, 0⟩, [cmd], [], [], false, true⟩

/-- The packed RGB integers of the fixed 8-color flow sequence, written as
in `startColorFlow` (`src/platformAccessory.ts` lines 287-296). -/
def colorFlowColors : List ℚ :=
  [255 * 65536 + 36 * 256 + 0,
   232 * 65536 + 29 * 256 + 29,
   232 * 65536 + 183 * 256 + 29,
   227 * 65536 + 232 * 256 + 29,
   29 * 65536 + 232 * 256 + 64,
   29 * 65536 + 221 * 256 + 232,
   43 * 65536 + 29 * 256 + 232,
   221 * 65536 + 0 * 256 + 243]

/-- The flow tuples `2250,1,${color},100` of `startColorFlow`
(`src/platformAccessory.ts` line 298). -/
def colorFlowTuples : List String :=
  colorFlowColors.map (fun c => "2250,1," ++ toString c ++ ",100")

/-- `startColorFlow` (`src/platformAccessory.ts` lines 278-304) on the
success path: loads the device property `flowing`; if it reports the string "1" it
issues a single `stop_cf` call and returns, otherwise it issues a single
`set_scene` call with arguments `[cf, 0, 0, tuples]` (tuples joined by
comma-space) with the fixed 8-color
sequence. -/
def startColorFlow (flowing : String) : List DeviceCmd :=
  if flowing = "1" then
    [.loadProperties ["flowing"], .call "stop_cf" []]
  else
    [.loadProperties ["flowing"],
     .call "set_scene"
       [.str "cf", .num 0, .num 0,
        .str (String.intercalate ", " colorFlowTuples)]]

/-- The communication-failure signal raised by the synchronous-pull
getters: `HapStatusError(SERVICE_COMMUNICATION_FAILURE)`. -/
inductive HapErr where
  | serviceCommunicationFailure : HapErr
deriving DecidableEq, Repr

/-- The color object returned by `connection.color()` in the
synchronous-pull variant, with the fields the getters read:
`color.hsl.hue`, `color.hsl.saturation` and
`color.temperature.mired.value`. -/
structure DevColor where
  hslHue : ℚ
  hslSaturation : ℚ
  mired : ℚ
deriving DecidableEq, Repr

namespace Pull

/-- `getOn` (`src/unnamed/part_000` lines 102-113): returns the freshly
queried power state, or raises the communication-failure signal when the
query rejects (modelled by `none`). -/
def getOn : Option Bool → Except HapErr Bool
  | some p => .ok p
  | none => .error .serviceCommunicationFailure

/-- `getBrightness` (`src/unnamed/part_000` lines 131-141): returns the
freshly queried brightness, or raises the communication-failure signal. -/
def getBrightness : Option ℚ → Except HapErr ℚ
  | some b => .ok b
  | none => .error .serviceCommunicationFailure

/-- `getColorTemperature` (`src/unnamed/part_000` lines 166-178): queries
the color, clamps `color.temperature.mired.value` to [140, 500] with
`Math.min(Math.max(temp, 140), 500)`, or raises the communication-failure
signal. -/
def getColorTemperature : Option DevColor → Except HapErr ℚ
  | some c => .ok (min (max c.mired 140) 500)
  | none => .error .serviceCommunicationFailure

/-- `getHue` (`src/unnamed/part_000` lines 199-209): returns the freshly
queried `color.hsl.hue`, or raises the communication-failure signal. -/
def getHue : Option DevColor → Except HapErr ℚ
  | some c => .ok c.hslHue
  | none => .error .serviceCommunicationFailure

/-- `getSaturation` (`src/unnamed/part_000` lines 229-239): returns the
freshly queried `color.hsl.saturation`, or raises the
communication-failure signal. -/
def getSaturation : Option DevColor → Except HapErr ℚ
  | some c => .ok c.hslSaturation
  | none => .error .serviceCommunicationFailure

end Pull

/-- The `configs` bounds of the event-driven variants
(`src/platformAccessory.ts` lines 22-25): `minTemp = 154`,
`maxTemp = 370`. -/
def minTemp : ℚ := 154

/-- See `minTemp`. -/
def maxTemp : ℚ := 370

/-- The color event payload delivered to the `colorChanged` listeners:
its `model` tag, its mired temperature value, and its `.hsv` view. -/
structure ColorEvent where
  model : String
  mired : ℚ
  hsv : HSV
deriving DecidableEq, Repr

/-- The `powerChanged` handler (`src/platformAccessory.ts` lines
109-113): pushes the incoming power value only when it differs from the
cached value of the power characteristic. -/
def powerChangedHandler (power : Bool) (s : LightState) :
    LightState × List CharUpdate :=
  if power ≠ s.chars.power then
    ({ s with chars := { s.chars with power := power } },
      [CharUpdate.mk .power (.bool power)])
  else (s, [])

/-- The `brightnessChanged` handler (`src/platformAccessory.ts` lines
99-106): pushes the incoming brightness only when the brightness
characteristic is attached and the value differs from its cached value. -/
def brightnessChangedHandler (bright : ℚ) (s : LightState) :
    LightState × List CharUpdate :=
  match s.chars.brightness with
  | some bv =>
    if bright ≠ bv then
      ({ s with chars := { s.chars with brightness := some bright } },
        [CharUpdate.mk .brightness (.num bright)])
    else (s, [])
  | none => (s, [])

/-- The temperature-model `colorChanged` handler
(`src/platformAccessory.ts` lines 52-73): ignores non-temperature color
models; otherwise clamps the incoming mired value to
[`minTemp`, `maxTemp`] = [154, 370], and when the color-temperature
characteristic is attached and the clamped value differs from its cached
value, pushes the clamped value and runs `updateHueAndSaturation`. -/
def colorChangedTempHandler (ev : ColorEvent) (s : LightState) :
    LightState × List CharUpdate :=
  if ev.model ≠ "temperature" ∧ ev.model ≠ "mired" then (s, [])
  else
    let tmp := min (max ev.mired minTemp) maxTemp
    match s.chars.colorTmp with
    | some tv =>
      if tmp ≠ tv then
        let s1 : LightState :=
          { s with chars := { s.chars with colorTmp := some tmp } }
        let p := updateHueAndSaturation ev.hsv s1
        (p.1, CharUpdate.mk .colorTmp (.num tmp) :: p.2)
      else (s, [])
    | none => (s, [])

/-- The capability profile detected at connection time through
`connection.matches(...)` (`src/platformAccessory.ts` lines 43, 76, 94). -/
structure Caps where
  colorTemperature : Bool
  colorFull : Bool
  dimmable : Bool
deriving DecidableEq, Repr

/-- The characteristic references wired by the constructor
(`src/platformAccessory.ts` lines 43-107 and 145-149): the power
characteristic is always bound, while the color-temperature, hue,
saturation and brightness characteristics are populated only when the
matching capability pair was detected; the cached characteristic values at
wiring time are passed in. -/
def initialChars (caps : Caps) (power0 : Bool) (tmp0 b0 h0 s0 : ℚ) :
    LightChars :=
  { power := power0,
    colorTmp := if caps.colorTemperature then some tmp0 else none,
    brightness := if caps.dimmable then some b0 else none,
    hue := if caps.colorFull then some h0 else none,
    sat := if caps.colorFull then some s0 else none }

/-- One platform-driven color setter invocation in a trace: which channel
was set, the value passed, and whether the device call succeeded. -/
inductive ColorEv where
  | setHueEv : ℚ → DevResult → ColorEv
  | setSatEv : ℚ → DevResult → ColorEv
deriving DecidableEq, Repr

/-- Runs a sequence of `setHue`/`setSaturation` invocations from a given
shadow state, collecting every device command sent. -/
def runColor (st : ShadowState) (nightOn : Bool) :
    List ColorEv → ShadowState × List DeviceCmd
  | [] => (st, [])
  | ev :: rest =>
    let o := match ev with
      | .setHueEv v r => setHue v st nightOn r
      | .setSatEv v r => setSaturation v st nightOn r
    let p := runColor o.shadow nightOn rest
    (p.1, o.cmds ++ p.2)

/-- Claim C1: every `setHue` or `setSaturation` call, from any shadow
state (hence after any prior sets in any order), sends exactly one device
command: the combined HSL string built from the latest hue and saturation
(the value just passed for the channel being set, the stored shadow value
for the other channel); and over any trace of color sets every command
sent is such a combined HSL string, so no single-channel hue-only or
saturation-only command is ever sent. -/
theorem C1_combined_hsl_command :
    (∀ (v : ℚ) (st : ShadowState) (n : Bool) (r : DevResult),
      (setHue v st n r).cmds =
        [DeviceCmd.color (hslString v st.saturation)] ∧
      (setSaturation v st n r).cmds =
        [DeviceCmd.color (hslString st.hue v)]) ∧
    (∀ (st : ShadowState) (n : Bool) (evs : List ColorEv) (c : DeviceCmd),
      c ∈ (runColor st n evs).2 →
      ∃ h s, c = DeviceCmd.color (hslString h s)) := by
  constructor
  · intro v st n r
    cases r <;> exact ⟨rfl, rfl⟩
  · intro st n evs
    induction evs generalizing st with
    | nil => intro c hc; simp [runColor] at hc
    | cons ev rest ih =>
      intro c hc
      cases ev with
      | setHueEv v r =>
        rw [runColor] at hc
        simp only [List.mem_append] at hc
        rcases hc with hc | hc
        · cases r <;> simp [setHue] at hc <;>
            exact ⟨v, st.saturation, hc⟩
        · exact ih _ _ hc
      | setSatEv v r =>
        rw [runColor] at hc
        simp only [List.mem_append] at hc
        rcases hc with hc | hc
        · cases r <;> simp [setSaturation] at hc <;>
            exact ⟨st.hue, v, hc⟩
        · exact ih _ _ hc

/-- Witness for claim C1: one concrete trace instance. -/
theorem C1_combined_hsl_command_witness :
    ∃ h s, DeviceCmd.color (hslString 120 0) =
      DeviceCmd.color (hslString h s) :=
  C1_combined_hsl_command.2 ⟨0, 0⟩ false [ColorEv.setHueEv 120 .ok]
    (DeviceCmd.color (hslString 120 0)) (by simp [runColor, setHue])

/-- Claim C2: in the reverting variant, a `setHue` (resp. `setSaturation`)
whose device command fails leaves the shadow state exactly as before the
call and pushes no characteristic update, while a successful call leaves
the shadow channel equal to the value just set. -/
theorem C2_revert_on_failure :
    ∀ (v : ℚ) (st : ShadowState) (n : Bool),
      (setHue v st n .err).shadow = st ∧
      (setHue v st n .err).updates = [] ∧
      (setHue v st n .ok).shadow = ⟨v, st.saturation⟩ ∧
      (setSaturation v st n .err).shadow = st ∧
      (setSaturation v st n .err).updates = [] ∧
      (setSaturation v st n .ok).shadow = ⟨st.hue, v⟩ := by
  intro v st n
  exact ⟨rfl, rfl, rfl, rfl, rfl, rfl⟩

/-- Claim C3: for every mired input in [140, 500], the Kelvin value
computed by `setColorTemperature` equals `round(1000000 / mired)`, is a
strictly positive integer, and the command sent is exactly that integer
followed by a trailing K. -/
theorem C3_kelvin_conversion (m : ℚ) (st : ShadowState) (n : Bool)
    (r : DevResult) (h1 : 140 ≤ m) (h2 : m ≤ 500) :
    jsRound (1000000 / m) = round ((1000000 : ℚ) / m) ∧
    0 < jsRound (1000000 / m) ∧
    (setColorTemperature m st n r).cmds =
      [DeviceCmd.color (toString (round ((1000000 : ℚ) / m)) ++ "K")] := by
  have hm : (0 : ℚ) < m := by linarith
  have hq : (2000 : ℚ) ≤ 1000000 / m := by
    rw [le_div_iff₀ hm]; linarith
  have hround : jsRound (1000000 / m) = round ((1000000 : ℚ) / m) :=
    (round_eq _).symm
  have hpos : 0 < jsRound (1000000 / m) := by
    have : (1 : ℤ) ≤ ⌊(1000000 / m : ℚ) + 1 / 2⌋ := by
      apply Int.le_floor.mpr
      push_cast
      linarith
    simpa [jsRound] using lt_of_lt_of_le (by norm_num) this
  refine ⟨hround, hpos, ?_⟩
  cases r <;>
    simp [setColorTemperature, kelvinStr, hround]

/-- Witness for claim C3, at mired 160 (Kelvin 6250). -/
theorem C3_kelvin_conversion_witness :
    jsRound (1000000 / (160 : ℚ)) = round ((1000000 : ℚ) / 160) ∧
    0 < jsRound (1000000 / (160 : ℚ)) ∧
    (setColorTemperature 160 ⟨0, 0⟩ false .ok).cmds =
      [DeviceCmd.color (toString (round ((1000000 : ℚ) / 160)) ++ "K")] :=
  C3_kelvin_conversion 160 ⟨0, 0⟩ false .ok (by norm_num) (by norm_num)

/-- Counterexample to claim C4: `setNightMode` with a truthy value has no
try/catch around its `set_scene` device call, so a device failure
propagates to the platform caller and is not logged; likewise
`setMoonLight`. -/
theorem C4_counterexample :
    (setNightMode true
      ⟨⟨0, 0⟩, ⟨false, none, some 50, none, none⟩, false⟩ .err).raises
        = true ∧
    (setNightMode true
      ⟨⟨0, 0⟩, ⟨false, none, some 50, none, none⟩, false⟩ .err).loggedError
        = false ∧
    (setMoonLight true .err).raises = true ∧
    (setMoonLight true .err).loggedError = false :=
  ⟨rfl, rfl, rfl, rfl⟩

/-- Claim C4 as amended: the setters `setOn`, `setBrightness`,
`setColorTemperature`, `setHue` and `setSaturation` wrap their
device-client call — every failure is logged and never propagates to the
platform caller — but `setNightMode` (enabling night mode) and
`setMoonLight` issue their device calls unwrapped, so there a device
failure propagates unlogged. -/
theorem C4_amended :
    ∀ (b : Bool) (v : ℚ) (st : ShadowState) (n : Bool) (s : LightState)
      (r : DevResult),
      (setOn b st n r).raises = false ∧
      (setOn b st n .err).loggedError = true ∧
      (setBrightness v st n r).raises = false ∧
      (setBrightness v st n .err).loggedError = true ∧
      (setColorTemperature v st n r).raises = false ∧
      (setColorTemperature v st n .err).loggedError = true ∧
      (setHue v st n r).raises = false ∧
      (setHue v st n .err).loggedError = true ∧
      (setSaturation v st n r).raises = false ∧
      (setSaturation v st n .err).loggedError = true ∧
      (setNightMode true s .err).raises = true ∧
      (setNightMode true s .err).loggedError = false ∧
      (setMoonLight b .err).raises = true ∧
      (setMoonLight b .err).loggedError = false := by
  intro b v st n s r
  cases r <;>
    exact ⟨rfl, rfl, rfl, rfl, rfl, rfl, rfl, rfl, rfl, rfl,
           rfl, rfl, rfl, rfl⟩

/-- Counterexample to claim C5: when the device reports mired 600, the
synchronous-pull `getColorTemperature` returns the clamped value 500, not
the freshly queried device value 600. -/
theorem C5_counterexample :
    Pull.getColorTemperature (some ⟨0, 0, 600⟩) = Except.ok 500 ∧
    (500 : ℚ) ≠ (⟨0, 0, 600⟩ : DevColor).mired := by
  constructor
  · show Except.ok (min (max (600 : ℚ) 140) 500) = Except.ok 500
    norm_num
  · norm_num

/-- Claim C5 as amended: in the synchronous-pull variant, `getOn`,
`getBrightness`, `getHue` and `getSaturation` return the freshly queried
device value, `getColorTemperature` returns the freshly queried mired
value clamped to [140, 500], and every getter raises
`HapStatusError(SERVICE_COMMUNICATION_FAILURE)` when the device query
fails, rather than returning any stale or default value. -/
theorem C5_amended :
    ∀ (p : Bool) (b : ℚ) (c : DevColor),
      Pull.getOn (some p) = .ok p ∧
      Pull.getOn none = .error .serviceCommunicationFailure ∧
      Pull.getBrightness (some b) = .ok b ∧
      Pull.getBrightness none = .error .serviceCommunicationFailure ∧
      Pull.getColorTemperature (some c) =
        .ok (min (max c.mired 140) 500) ∧
      Pull.getColorTemperature none =
        .error .serviceCommunicationFailure ∧
      Pull.getHue (some c) = .ok c.hslHue ∧
      Pull.getHue none = .error .serviceCommunicationFailure ∧
      Pull.getSaturation (some c) = .ok c.hslSaturation ∧
      Pull.getSaturation none = .error .serviceCommunicationFailure :=
  fun _ _ _ =>
    ⟨rfl, rfl, rfl, rfl, rfl, rfl, rfl, rfl, rfl, rfl⟩

/-- Claim C6, failing input: with the hue characteristic cached at 120 and
the saturation characteristic cached at 50, an incoming color with hue 120
and saturation 50 makes `updateHueAndSaturation` push an update of 50 to
the saturation characteristic even though the incoming saturation equals
its cached value — because the saturation branch compares the incoming HUE
(120) against the cached saturation (50).  The spec requires no update to
be pushed when the incoming value equals the cached value of that same
characteristic. -/
theorem C6_sat_dedup_bug :
    (updateHueAndSaturation ⟨120, 50, 100⟩
        ⟨⟨120, 50⟩, ⟨false, none, none, some 120, some 50⟩, false⟩).2 =
      [CharUpdate.mk .sat (.num 50)] ∧
    (⟨false, none, none, some 120, some 50⟩ : LightChars).sat = some 50 ∧
    (⟨120, 50, 100⟩ : HSV).saturation = 50 := by
  refine ⟨?_, rfl, rfl⟩
  simp [updateHueAndSaturation, hueStep, satStep]

/-- The hue branch never touches the brightness characteristic. -/
theorem hueStep_brightness (c : HSV) (s : LightState) :
    (hueStep c s).1.chars.brightness = s.chars.brightness := by
  unfold hueStep
  cases h : s.chars.hue with
  | none => rfl
  | some hv => by_cases hc : c.hue ≠ hv <;> simp [hc]

/-- The saturation branch never touches the brightness characteristic. -/
theorem satStep_brightness (c : HSV) (s : LightState) :
    (satStep c s).1.chars.brightness = s.chars.brightness := by
  unfold satStep
  cases h : s.chars.sat with
  | none => rfl
  | some sv => by_cases hc : c.hue ≠ sv <;> simp [hc]

/-- `updateHueAndSaturation` never touches the brightness
characteristic. -/
theorem updateHueAndSaturation_brightness (c : HSV) (s : LightState) :
    (updateHueAndSaturation c s).1.chars.brightness =
      s.chars.brightness := by
  unfold updateHueAndSaturation
  rw [satStep_brightness, hueStep_brightness]

/-- Every update pushed by the hue branch targets the hue
characteristic. -/
theorem hueStep_targets (c : HSV) (s : LightState) :
    ∀ u ∈ (hueStep c s).2, u.target = CharTarget.hue := by
  unfold hueStep
  cases h : s.chars.hue with
  | none => simp
  | some hv => by_cases hc : c.hue ≠ hv <;> simp [hc]

/-- Every update pushed by the saturation branch targets the saturation
characteristic. -/
theorem satStep_targets (c : HSV) (s : LightState) :
    ∀ u ∈ (satStep c s).2, u.target = CharTarget.sat := by
  unfold satStep
  cases h : s.chars.sat with
  | none => simp
  | some sv => by_cases hc : c.hue ≠ sv <;> simp [hc]

/-- Every update pushed by `updateHueAndSaturation` targets the hue or
the saturation characteristic. -/
theorem updateHueAndSaturation_targets (c : HSV) (s : LightState) :
    ∀ u ∈ (updateHueAndSaturation c s).2,
      u.target = CharTarget.hue ∨ u.target = CharTarget.sat := by
  unfold updateHueAndSaturation
  intro u hu
  simp only [List.mem_append] at hu
  rcases hu with hu | hu
  · exact Or.inl (hueStep_targets _ _ u hu)
  · exact Or.inr (satStep_targets _ _ u hu)

/-- Counterexample to claim C7: on an accessory without the full-color
capability (hue and saturation characteristics absent), enabling night
mode leaves the shadow state untouched — its saturation stays 0 although
the night-light color rgb(255, 152, 0) has saturation 100 — and pushes no
hue or saturation update. -/
theorem C7_counterexample :
    (setNightMode true
      ⟨⟨0, 0⟩, ⟨false, none, some 50, none, none⟩, true⟩
        .ok).state.shadow.saturation = 0 ∧
    (rgbToHsv nightLightColor).saturation = 100 ∧
    (setNightMode true
      ⟨⟨0, 0⟩, ⟨false, none, some 50, none, none⟩, true⟩ .ok).updates =
      [CharUpdate.mk .brightness (.num 1),
       CharUpdate.mk .power (.bool true)] := by
  refine ⟨?_, ?_, ?_⟩
  · simp [setNightMode, updateHueAndSaturation, hueStep, satStep]
  · norm_num [rgbToHsv, nightLightColor]
  · simp [setNightMode, updateHueAndSaturation, hueStep, satStep]

/-- Claim C7 as amended: `setNightMode` with a truthy value (device call
succeeding) issues the nightlight scene command and then — provided the
hue and saturation characteristics are attached and the comparisons of
`updateHueAndSaturation` fire — updates the hue/saturation
characteristics and the shadow state to the night-light color
rgb(255, 152, 0), sets the brightness characteristic to 1 and the power
characteristic to true; with a falsy value it defers re-enabling the
night-mode switch through a zero-delay timer and makes no device-client
call. -/
theorem C7_amended (s : LightState) (b hv sv : ℚ)
    (hb : s.chars.brightness = some b)
    (hh : s.chars.hue = some hv)
    (hs : s.chars.sat = some sv)
    (h1 : (rgbToHsv nightLightColor).hue ≠ hv)
    (h2 : (rgbToHsv nightLightColor).hue ≠ sv) :
    (setNightMode true s .ok).cmds =
      [DeviceCmd.call "set_scene" [.str "nightlight", .num 10]] ∧
    (setNightMode true s .ok).state.shadow =
      ⟨(rgbToHsv nightLightColor).hue,
       (rgbToHsv nightLightColor).saturation⟩ ∧
    (setNightMode true s .ok).updates =
      [CharUpdate.mk .hue (.num (rgbToHsv nightLightColor).hue),
       CharUpdate.mk .sat (.num (rgbToHsv nightLightColor).saturation),
       CharUpdate.mk .brightness (.num 1),
       CharUpdate.mk .power (.bool true)] ∧
    (setNightMode true s .ok).raises = false ∧
    (∀ r, (setNightMode false s r).cmds = [] ∧
      (setNightMode false s r).deferred =
        [CharUpdate.mk .nightModeSwitch (.bool true)] ∧
      (setNightMode false s r).raises = false) := by
  refine ⟨?_, ?_, ?_, ?_, ?_⟩ <;>
    simp [setNightMode, updateHueAndSaturation, hueStep, satStep,
      hb, hh, hs, h1, h2]

/-- Witness for claim C7 (amended), on a concrete state with all three
characteristics attached and cached at values the night color differs
from. -/
theorem C7_amended_witness :
    (setNightMode true
      ⟨⟨0, 0⟩, ⟨false, none, some 50, some 0, some 0⟩, false⟩
        .ok).state.shadow =
      ⟨(rgbToHsv nightLightColor).hue,
       (rgbToHsv nightLightColor).saturation⟩ :=
  (C7_amended ⟨⟨0, 0⟩, ⟨false, none, some 50, some 0, some 0⟩, false⟩
    50 0 0 rfl rfl rfl
    (by norm_num [rgbToHsv, nightLightColor])
    (by norm_num [rgbToHsv, nightLightColor])).2.1

/-- Claim C8: the synchronous-pull `getColorTemperature` returns the
device-reported mired value clamped to [140, 500] — it equals
`min(max(m, 140), 500)` and always lies within [140, 500] — while the
event-driven `colorChanged` handler clamps the incoming mired value to
[154, 370]: every value it pushes to the color-temperature characteristic
equals `min(max(m, 154), 370)` and lies within [154, 370]. -/
theorem C8_color_temp_clamp :
    (∀ c : DevColor,
      Pull.getColorTemperature (some c) =
        Except.ok (min (max c.mired 140) 500) ∧
      140 ≤ min (max c.mired 140) 500 ∧
      min (max c.mired 140) 500 ≤ 500) ∧
    (∀ (ev : ColorEvent) (s : LightState) (u : ℚ),
      CharUpdate.mk .colorTmp (.num u) ∈ (colorChangedTempHandler ev s).2 →
      u = min (max ev.mired 154) 370 ∧ 154 ≤ u ∧ u ≤ 370) := by
  constructor
  · intro c
    exact ⟨rfl, le_min (le_max_right _ _) (by norm_num), min_le_right _ _⟩
  · intro ev s u hu
    unfold colorChangedTempHandler at hu
    split at hu
    · simp at hu
    · split at hu
      · dsimp only at hu
        split at hu
        · simp only [List.mem_cons] at hu
          rcases hu with hu | hu
          · have hueq : u = min (max ev.mired minTemp) maxTemp := by
              have := congrArg CharUpdate.value hu
              simpa using this
            subst hueq
            refine ⟨by simp [minTemp, maxTemp], ?_, ?_⟩
            · rw [minTemp]
              exact le_min (le_max_right _ _) (by norm_num [minTemp, maxTemp])
            · rw [maxTemp]
              exact min_le_right _ _
          · have := updateHueAndSaturation_targets _ _ _ hu
            simp at this
        · simp at hu
      · simp at hu

/-- Witness for claim C8: a concrete event with mired 400 on a state
cached at 200 pushes the clamped value 370. -/
theorem C8_color_temp_clamp_witness :
    (370 : ℚ) = min (max (400 : ℚ) 154) 370 ∧
    (154 : ℚ) ≤ 370 ∧ (370 : ℚ) ≤ 370 :=
  C8_color_temp_clamp.2 ⟨"temperature", 400, ⟨0, 0, 0⟩⟩
    ⟨⟨0, 0⟩, ⟨false, some 200, none, none, none⟩, false⟩ 370
    (by norm_num [colorChangedTempHandler, updateHueAndSaturation,
      hueStep, satStep, minTemp, maxTemp])

/-- Claim C9: `startColorFlow` first loads the device property `flowing`;
it issues a single `stop_cf` call (and starts no animation) exactly when
the device reports the string "1", and otherwise issues a single
`set_scene` call `[cf, 0, 0, tuples]` whose tuples are exactly the fixed
8-color cycling sequence of packed RGB integers, each rendered as
`2250,1,<packed>,100` and joined by comma-space. -/
theorem C9_color_flow :
    ∀ flowing : String,
      (startColorFlow flowing =
        [DeviceCmd.loadProperties ["flowing"],
         DeviceCmd.call "stop_cf" []] ↔ flowing = "1") ∧
      (flowing ≠ "1" →
        startColorFlow flowing =
          [DeviceCmd.loadProperties ["flowing"],
           DeviceCmd.call "set_scene"
             [.str "cf", .num 0, .num 0,
              .str (String.intercalate ", "
                (colorFlowColors.map
                  (fun c => "2250,1," ++ toString c ++ ",100")))]]) ∧
      colorFlowColors =
        [16720896, 15211805, 15251229, 14936093,
         1960000, 1957352, 2825704, 14483699] := by
  intro flowing
  refine ⟨⟨?_, ?_⟩, ?_, ?_⟩
  · intro h
    by_contra hne
    rw [startColorFlow, if_neg hne] at h
    simp at h
  · intro h
    rw [startColorFlow, if_pos h]
  · intro h
    rw [startColorFlow, if_neg h, colorFlowTuples]
  · norm_num [colorFlowColors]

/-- Witness for claim C9: the two branches at concrete `flowing`
values. -/
theorem C9_color_flow_witness :
    startColorFlow "1" =
      [DeviceCmd.loadProperties ["flowing"],
       DeviceCmd.call "stop_cf" []] ∧
    startColorFlow "0" =
      [DeviceCmd.loadProperties ["flowing"],
       DeviceCmd.call "set_scene"
         [.str "cf", .num 0, .num 0,
          .str (String.intercalate ", "
            (colorFlowColors.map
              (fun c => "2250,1," ++ toString c ++ ",100")))]] :=
  ⟨(C9_color_flow "1").1.mpr rfl,
   (C9_color_flow "0").2.1 (by decide)⟩

/-- Claim C10: the brightness characteristic reference is populated only
when the dimmable/brightness capability pair was detected, yet
`setNightMode` with a truthy value dereferences it with a non-null
assertion; so on every accessory wired without that capability, enabling
night mode (scene command succeeding) performs an unguarded access to the
absent optional field — the call crashes and the error escapes. -/
theorem C10_unguarded_brightness (caps : Caps) (p0 : Bool)
    (t0 b0 h0 s0 : ℚ) (sh : ShadowState) (nOn : Bool)
    (hcap : caps.dimmable = false) :
    (setNightMode true
      ⟨sh, initialChars caps p0 t0 b0 h0 s0, nOn⟩ .ok).crash = true ∧
    (setNightMode true
      ⟨sh, initialChars caps p0 t0 b0 h0 s0, nOn⟩ .ok).raises = true := by
  have hb : (updateHueAndSaturation (rgbToHsv nightLightColor)
      ⟨sh, initialChars caps p0 t0 b0 h0 s0, nOn⟩).1.chars.brightness =
      none := by
    rw [updateHueAndSaturation_brightness]
    simp [initialChars, hcap]
  constructor <;> simp [setNightMode, hb]

/-- Witness for claim C10: a color-only capability profile. -/
theorem C10_unguarded_brightness_witness :
    (setNightMode true
      ⟨⟨0, 0⟩, initialChars ⟨true, true, false⟩ false 200 100 0 0, false⟩
        .ok).crash = true :=
  (C10_unguarded_brightness ⟨true, true, false⟩ false 200 100 0 0
    ⟨0, 0⟩ false rfl).1

end Yeelight
